import Mathlib

/-!
Shallow embedding of the AI-Tutor chat front end (src/index.tsx).

The program is a browser chat client: a regex-based markdown formatter,
a single attachment slot, an append-only transcript, and a streaming
send loop.  DOM state is modelled as a record `UIState`; the async
stream is modelled by a `StreamBehavior` value describing the chunks the
remote session yields and whether iteration ends normally or by a thrown
error.
-/

namespace AITutor

/-! ### Text formatter

`renderMessage` (src/index.tsx:114-118) and the streaming loop
(src/index.tsx:180-184) both apply the same four global regex
substitutions, in this order:

  .replace(/\*\*(.*?)\*\*/g, '<strong>$1</strong>')
  .replace(/\*(.*?)\*/g, '<em>$1</em>')
  .replace(/`([^`]+)`/g, '<code>$1</code>')
  .replace(/(\r\n|\n|\r)/gm, '<br>')

JavaScript `.` (no `s` flag) does not match line terminators; `.*?` is
lazy, so the shortest content before the closing marker wins; a global
replace scans left to right and, after a failed match attempt, advances
one position.  Each pass is modelled as a recursive scan over the
character list; recursion is driven by a fuel argument initialised to
the list length (every step consumes at least one character, so the
fuel never runs out) to keep the definitions structurally recursive and
hence computable by `decide`/`rfl`. -/

/-- A character the JavaScript `.` (without the `s` flag) does not match. -/
def isLineTerminator (c : Char) : Bool :=
  c = '\n' || c = '\r' || c = '\u2028' || c = '\u2029'

/-- Lazy search for the closing `**` of `/\*\*(.*?)\*\*/`: split `cs` into
the shortest run of non-line-terminator characters followed by `**`,
returning the content and the remainder after the closing `**`. -/
def findBoldClose : List Char → Option (List Char × List Char)
  | [] => none
  | '*' :: '*' :: rest => some ([], rest)
  | c :: rest =>
    if isLineTerminator c then none
    else (findBoldClose rest).map (fun p => (c :: p.1, p.2))

/-- Lazy search for the closing `*` of `/\*(.*?)\*/`. -/
def findItalicClose : List Char → Option (List Char × List Char)
  | [] => none
  | '*' :: rest => some ([], rest)
  | c :: rest =>
    if isLineTerminator c then none
    else (findItalicClose rest).map (fun p => (c :: p.1, p.2))

/-- Search for the closing backtick of `` /`([^`]+)`/ ``: the content is the
run of non-backtick characters up to the next backtick (the negated class
also matches newlines). -/
def findCodeClose : List Char → Option (List Char × List Char)
  | [] => none
  | '`' :: rest => some ([], rest)
  | c :: rest => (findCodeClose rest).map (fun p => (c :: p.1, p.2))

/-- One pass of `.replace(/\*\*(.*?)\*\*/g, '<strong>$1</strong>')`. -/
def replaceBoldAux : Nat → List Char → List Char
  | 0, cs => cs
  | _ + 1, [] => []
  | fuel + 1, '*' :: '*' :: rest =>
    match findBoldClose rest with
    | some (content, r) =>
      "<strong>".toList ++ content ++ "</strong>".toList ++ replaceBoldAux fuel r
    | none => '*' :: '*' :: replaceBoldAux fuel rest
  | fuel + 1, c :: rest => c :: replaceBoldAux fuel rest

def replaceBold (cs : List Char) : List Char := replaceBoldAux cs.length cs

/-- One pass of `.replace(/\*(.*?)\*/g, '<em>$1</em>')`. -/
def replaceItalicAux : Nat → List Char → List Char
  | 0, cs => cs
  | _ + 1, [] => []
  | fuel + 1, '*' :: rest =>
    match findItalicClose rest with
    | some (content, r) =>
      "<em>".toList ++ content ++ "</em>".toList ++ replaceItalicAux fuel r
    | none => '*' :: replaceItalicAux fuel rest
  | fuel + 1, c :: rest => c :: replaceItalicAux fuel rest

def replaceItalic (cs : List Char) : List Char := replaceItalicAux cs.length cs

/-- One pass of `` .replace(/`([^`]+)`/g, '<code>$1</code>') ``; the `+`
requires a non-empty content between the backticks. -/
def replaceCodeAux : Nat → List Char → List Char
  | 0, cs => cs
  | _ + 1, [] => []
  | fuel + 1, '`' :: rest =>
    match findCodeClose rest with
    | some (content, r) =>
      if content.isEmpty then '`' :: replaceCodeAux fuel rest
      else "<code>".toList ++ content ++ "</code>".toList ++ replaceCodeAux fuel r
    | none => '`' :: replaceCodeAux fuel rest
  | fuel + 1, c :: rest => c :: replaceCodeAux fuel rest

def replaceCode (cs : List Char) : List Char := replaceCodeAux cs.length cs

/-- One pass of `.replace(/(\r\n|\n|\r)/gm, '<br>')`; the alternation
prefers `\r\n` over the single terminators. -/
def replaceNewlines : List Char → List Char
  | [] => []
  | '\r' :: '\n' :: rest => "<br>".toList ++ replaceNewlines rest
  | '\n' :: rest => "<br>".toList ++ replaceNewlines rest
  | '\r' :: rest => "<br>".toList ++ replaceNewlines rest
  | c :: rest => c :: replaceNewlines rest

/-- The complete formatter: the four substitutions applied to the whole
input, in the source's fixed order (bold, italics, inline code, newlines). -/
def formatMessage (message : String) : String :=
  String.mk (replaceNewlines (replaceCode (replaceItalic (replaceBold message.toList))))

/-! ### Data model

`AttachedFile` mirrors the field `attachedFile: {mimeType; data; name} | null`
(src/index.tsx:33); the transcript entries mirror the DOM children of
`#messages` (a sender class plus the element's HTML content); `UIState`
collects the mutable DOM/application state the program touches. -/

structure AttachedFile where
  mimeType : String
  data : String
  name : String
deriving DecidableEq, Repr

inductive Sender where
  | user
  | ai
  | error
deriving DecidableEq, Repr

/-- One transcript entry: the sender class on the element and its
displayed content (`innerHTML` for user/ai entries, `textContent` for
error entries). -/
structure Entry where
  sender : Sender
  content : String
deriving DecidableEq, Repr

/-- The mutable state of the page: the transcript, the prompt input's
value, the loading flag (`app` has class `loading` and `promptInput` is
disabled), the attachment slot, the file input's value and the
`innerHTML` of the preview container. -/
structure UIState where
  messages : List Entry
  promptValue : String
  loading : Bool
  attachedFile : Option AttachedFile
  fileInputValue : String
  filePreview : String
deriving DecidableEq, Repr

def emptyUI : UIState :=
  { messages := [], promptValue := "", loading := false,
    attachedFile := none, fileInputValue := "", filePreview := "" }

/-! ### Elementary operations (src/index.tsx:16-137) -/

/-- `showLoading` (src/index.tsx:16-19). -/
def showLoading (ui : UIState) : UIState :=
  { ui with loading := true }

/-- `hideLoading` (src/index.tsx:22-26). -/
def hideLoading (ui : UIState) : UIState :=
  { ui with loading := false }

/-- `renderMessage` (src/index.tsx:109-124): append an entry whose
`innerHTML` is the formatted message; the returned DOM handle is
modelled by the entry's index, i.e. the length of the prior list. -/
def renderMessage (ui : UIState) (message : String) (sender : Sender) : UIState :=
  { ui with messages := ui.messages ++ [{ sender := sender, content := formatMessage message }] }

/-- `renderError` (src/index.tsx:130-137): append an error-styled entry
whose `textContent` is `Error: ` followed by the message, then
`hideLoading()`. -/
def renderError (ui : UIState) (message : String) : UIState :=
  hideLoading
    { ui with messages := ui.messages ++ [{ sender := Sender.error, content := "Error: " ++ message }] }

/-- `removeFile` (src/index.tsx:97-101): clear the attachment slot,
reset the file input and empty the preview container. -/
def removeFile (ui : UIState) : UIState :=
  { ui with attachedFile := none, fileInputValue := "", filePreview := "" }

/-- The `innerHTML` template written by `renderFilePreview`
(src/index.tsx:85-90). -/
def filePreviewHTML (name : String) : String :=
  "\n      <div class=\"file-preview\">\n        <span>" ++ name ++
  "</span>\n        <button class=\"remove-file-btn\" aria-label=\"Remove file\">&times;</button>\n      </div>\n    "

/-- `renderFilePreview` (src/index.tsx:83-92). -/
def renderFilePreview (ui : UIState) : UIState :=
  match ui.attachedFile with
  | none => ui
  | some f => { ui with filePreview := filePreviewHTML f.name }

/-- `handleFileChange` (src/index.tsx:61-78), with the asynchronous
base64 read already performed: `file` is the decoded attachment (or
`none` when the file list is empty, in which case nothing happens).
Storing into the single `attachedFile` field replaces any previous
attachment. -/
def handleFileChange (ui : UIState) (file : Option AttachedFile) : UIState :=
  match file with
  | none => ui
  | some f => renderFilePreview { ui with attachedFile := some f }

/-! ### sendMessage (src/index.tsx:143-196) -/

/-- One element of the `contents` array passed to
`chat.sendMessageStream` (src/index.tsx:153-162). -/
inductive Part where
  | inlineData (mimeType : String) (data : String)
  | text (t : String)
deriving DecidableEq, Repr

/-- A character removed by JavaScript's `String.prototype.trim`:
ECMAScript WhiteSpace (tab, VT, FF, space, NBSP, BOM and the Zs
category) and LineTerminator (LF, CR, LS, PS). -/
def isJsWhitespace (c : Char) : Bool :=
  c = '\t' || c = '\n' || c = '\u000b' || c = '\u000c' || c = '\r' || c = ' ' ||
  c = '\u00a0' || c = '\u1680' ||
  ('\u2000' ≤ c && c ≤ '\u200a') ||
  c = '\u2028' || c = '\u2029' || c = '\u202f' || c = '\u205f' || c = '\u3000' || c = '\ufeff'

def dropLeadingWs : List Char → List Char
  | [] => []
  | c :: rest => if isJsWhitespace c then dropLeadingWs rest else c :: rest

/-- `message.trim()` (src/index.tsx:144-145): strip whitespace from both
ends. -/
def jsTrim (s : String) : String :=
  String.mk ((dropLeadingWs (dropLeadingWs s.toList).reverse).reverse)

/-- The synchronous part of `sendMessage` up to (and excluding) the
network call (src/index.tsx:144-165): the guard, the synthesis of a
default message for an empty prompt with an attachment, `showLoading`,
rendering of the user message, clearing the input, building `contents`,
and `removeFile`.  Returns `none` when the guard returns early,
otherwise the state at the moment `sendMessageStream` is invoked
together with the `contents` it is invoked with. -/
def sendMessagePrep (ui : UIState) (message0 : String) : Option (UIState × List Part) :=
  if jsTrim message0 = "" ∧ ui.attachedFile = none then
    none
  else
    let message :=
      match ui.attachedFile with
      | some f => if jsTrim message0 = "" then "Analyze this file: " ++ f.name else message0
      | none => message0
    let ui1 := showLoading ui
    let ui2 := renderMessage ui1 message Sender.user
    let ui3 := { ui2 with promptValue := "" }
    let contents :=
      (match ui.attachedFile with
       | some f => [Part.inlineData f.mimeType f.data]
       | none => []) ++ [Part.text message]
    some (removeFile ui3, contents)

/-- Behaviour of the awaited response stream: either it yields `chunks`
and is exhausted normally, or it yields `chunks` and then iteration (or
the call itself, with `chunks = []`) throws.  The thrown value is
`some msg` for an `Error` with message `msg`, `none` for a non-`Error`
value. -/
inductive StreamBehavior where
  | ok (chunks : List String)
  | err (chunks : List String) (thrown : Option String)
deriving DecidableEq, Repr

/-- `error instanceof Error ? error.message : 'An unknown error occurred.'`
(src/index.tsx:192). -/
def thrownMessage : Option String → String
  | some m => m
  | none => "An unknown error occurred."

/-- State of the `for await` loop (src/index.tsx:171-190): the page
state, the index of `aiMessageElement` in the transcript (while null:
`none`), and the accumulated `buffer`. -/
structure LoopState where
  ui : UIState
  aiIdx : Option Nat
  buffer : String
deriving DecidableEq, Repr

/-- Overwrite the content of the transcript entry at index `i`
(`aiMessageElement.innerHTML = htmlContent`, src/index.tsx:187). -/
def updateContent : List Entry → Nat → String → List Entry
  | [], _, _ => []
  | e :: rest, 0, c => { e with content := c } :: rest
  | e :: rest, n + 1, c => e :: updateContent rest n c

/-- One iteration of the `for await` loop (src/index.tsx:174-190):
append the chunk's text to the buffer; on the first chunk create the
`'...'` AI placeholder; reformat the whole buffer and replace the AI
entry's displayed content. -/
def processChunk (ls : LoopState) (chunk : String) : LoopState :=
  let buffer := ls.buffer ++ chunk
  let (ui1, idx) :=
    match ls.aiIdx with
    | none => (renderMessage ls.ui "..." Sender.ai, ls.ui.messages.length)
    | some i => (ls.ui, i)
  { ui := { ui1 with messages := updateContent ui1.messages idx (formatMessage buffer) },
    aiIdx := some idx,
    buffer := buffer }

def processChunks (ls : LoopState) (chunks : List String) : LoopState :=
  chunks.foldl processChunk ls

/-- The `try`/`catch`/`finally` part of `sendMessage`
(src/index.tsx:167-195), starting from the state at the moment of the
network call: consume the stream chunk by chunk; on a thrown error,
`renderError` with the error's message; in any case `hideLoading`. -/
def sendMessageRun (ui : UIState) (behavior : StreamBehavior) : UIState :=
  match behavior with
  | StreamBehavior.ok chunks =>
    hideLoading (processChunks { ui := ui, aiIdx := none, buffer := "" } chunks).ui
  | StreamBehavior.err chunks thrown =>
    hideLoading
      (renderError (processChunks { ui := ui, aiIdx := none, buffer := "" } chunks).ui
        (thrownMessage thrown))

/-- The whole of `sendMessage` (src/index.tsx:143-196).  The second
component records the network call: `none` when the guard returned
early and no call was issued, `some contents` when
`chat.sendMessageStream({ message: contents })` was invoked. -/
def sendMessage (ui : UIState) (message : String) (behavior : StreamBehavior) :
    UIState × Option (List Part) :=
  match sendMessagePrep ui message with
  | none => (ui, none)
  | some (ui', contents) => (sendMessageRun ui' behavior, some contents)

/-! ### Construction (src/index.tsx:35-56, 199) -/

/-- The error message rendered when the API key is absent
(src/index.tsx:37). -/
def apiKeyError : String := "API_KEY environment variable not set."

/-- The welcome message rendered on successful construction
(src/index.tsx:54). -/
def welcomeText : String :=
  "Hello! I'm your AI Tutor from riteshacademy. Ask me anything about Power BI, SQL, Python, ML, and Advanced Excel. You can also attach a CSV or Excel file!"

/-- `!process.env.API_KEY` (src/index.tsx:36): the key is falsy when the
environment variable is unset or the empty string. -/
def keyAbsent : Option String → Bool
  | none => true
  | some s => s == ""

/-- Result of running the `AIChat` constructor: the page state and
whether a chat session was created (`this.chat` assigned). -/
structure InitResult where
  ui : UIState
  sessionCreated : Bool
deriving DecidableEq, Repr

/-- The `AIChat` constructor (src/index.tsx:35-48): on a missing key,
render a configuration error and return early (no session, no welcome
message); otherwise create the session and render the welcome message. -/
def construct (apiKey : Option String) (ui0 : UIState) : InitResult :=
  if keyAbsent apiKey then
    { ui := renderError ui0 apiKeyError, sessionCreated := false }
  else
    { ui := renderMessage ui0 welcomeText Sender.ai, sessionCreated := true }

/-! ### Helper notions for the theorems -/

/-- Concatenation of the chunk texts, in arrival order. -/
def concatChunks : List String → String
  | [] => ""
  | c :: rest => c ++ concatChunks rest

/-- Number of error-styled entries in a transcript. -/
def errorCount (l : List Entry) : Nat :=
  l.countP (fun e => e.sender == Sender.error)

/-- Number of AI entries in a transcript. -/
def aiCount (l : List Entry) : Nat :=
  l.countP (fun e => e.sender == Sender.ai)

/-! ### Helper lemmas -/

theorem updateContent_append (front : List Entry) (e : Entry) (c : String) :
    updateContent (front ++ [e]) front.length c = front ++ [{ e with content := c }] := by
  induction front with
  | nil => rfl
  | cons x xs ih => simpa [updateContent] using ih

theorem errorCount_updateContent (l : List Entry) (i : Nat) (c : String) :
    errorCount (updateContent l i c) = errorCount l := by
  induction l generalizing i with
  | nil => rfl
  | cons e rest ih =>
    cases i with
    | zero => simp [updateContent, errorCount, List.countP_cons]
    | succ n =>
      have h := ih n
      simp only [updateContent, errorCount, List.countP_cons] at h ⊢
      omega

theorem aiCount_updateContent (l : List Entry) (i : Nat) (c : String) :
    aiCount (updateContent l i c) = aiCount l := by
  induction l generalizing i with
  | nil => rfl
  | cons e rest ih =>
    cases i with
    | zero => simp [updateContent, aiCount, List.countP_cons]
    | succ n =>
      have h := ih n
      simp only [updateContent, aiCount, List.countP_cons] at h ⊢
      omega

theorem length_updateContent (l : List Entry) (i : Nat) (c : String) :
    (updateContent l i c).length = l.length := by
  induction l generalizing i with
  | nil => rfl
  | cons e rest ih =>
    cases i with
    | zero => simp [updateContent]
    | succ n => simp [updateContent, ih n]

/-- Displayed content of the AI entry after the loop consumes `chunks`,
starting from displayed content `s` and buffer `buf`. -/
def contentAfter (s buf : String) : List String → String
  | [] => s
  | chunks@(_ :: _) => formatMessage (buf ++ concatChunks chunks)

theorem contentAfter_cons (s buf c : String) (rest : List String) :
    contentAfter s buf (c :: rest)
      = contentAfter (formatMessage (buf ++ c)) (buf ++ c) rest := by
  cases rest with
  | nil => simp [contentAfter, concatChunks, String.append_empty]
  | cons d ds => simp [contentAfter, concatChunks, String.append_assoc]

/-- Running the loop with the AI entry already at the end of the
transcript (index `front.length`) only rewrites that entry's content and
extends the buffer. -/
theorem processChunks_some (chunks : List String) :
    ∀ (ui : UIState) (front : List Entry) (e : Entry) (buf : String),
      ui.messages = front ++ [e] →
      processChunks { ui := ui, aiIdx := some front.length, buffer := buf } chunks
        = { ui := { ui with messages := front ++ [{ e with content := contentAfter e.content buf chunks }] },
            aiIdx := some front.length,
            buffer := buf ++ concatChunks chunks } := by
  induction chunks with
  | nil =>
    intro ui front e buf h
    simp [processChunks, contentAfter, concatChunks, String.append_empty, ← h]
  | cons c rest ih =>
    intro ui front e buf h
    have hstep : processChunk { ui := ui, aiIdx := some front.length, buffer := buf } c
        = { ui := { ui with messages := front ++ [{ e with content := formatMessage (buf ++ c) }] },
            aiIdx := some front.length, buffer := buf ++ c } := by
      simp [processChunk, h, updateContent_append]
    have hfold : processChunks { ui := ui, aiIdx := some front.length, buffer := buf } (c :: rest)
        = processChunks (processChunk { ui := ui, aiIdx := some front.length, buffer := buf } c) rest := rfl
    rw [hfold, hstep, ih { ui with messages := front ++ [{ e with content := formatMessage (buf ++ c) }] }
      front { e with content := formatMessage (buf ++ c) } (buf ++ c) rfl]
    simp [contentAfter_cons, concatChunks, String.append_assoc]

/-- Running the loop on a non-empty chunk list from a fresh send (no AI
element yet, empty buffer) appends exactly one AI entry, whose content is
the formatter applied to the concatenation of all chunks. -/
theorem processChunks_run (ui : UIState) (c : String) (rest : List String) :
    processChunks { ui := ui, aiIdx := none, buffer := "" } (c :: rest)
      = { ui := { ui with messages := ui.messages
                    ++ [{ sender := Sender.ai, content := formatMessage (concatChunks (c :: rest)) }] },
          aiIdx := some ui.messages.length,
          buffer := concatChunks (c :: rest) } := by
  have hstep : processChunk { ui := ui, aiIdx := none, buffer := "" } c
      = { ui := { ui with messages := ui.messages ++ [{ sender := Sender.ai, content := formatMessage ("" ++ c) }] },
          aiIdx := some ui.messages.length, buffer := "" ++ c } := by
    simp [processChunk, renderMessage, updateContent_append]
  have hfold : processChunks { ui := ui, aiIdx := none, buffer := "" } (c :: rest)
      = processChunks (processChunk { ui := ui, aiIdx := none, buffer := "" } c) rest := rfl
  rw [hfold, hstep, processChunks_some rest
    { ui with messages := ui.messages ++ [{ sender := Sender.ai, content := formatMessage ("" ++ c) }] }
    ui.messages { sender := Sender.ai, content := formatMessage ("" ++ c) } ("" ++ c) rfl]
  cases rest with
  | nil => simp [contentAfter, concatChunks, String.append_empty, String.empty_append]
  | cons d ds => simp [contentAfter, concatChunks, String.empty_append, String.append_assoc]

/-- `sendMessagePrep` without an attachment and with non-blank text. -/
theorem sendMessagePrep_no_attach (ui : UIState) (msg : String)
    (hatt : ui.attachedFile = none) (hmsg : ¬ jsTrim msg = "") :
    sendMessagePrep ui msg
      = some ({ ui with
                  messages := ui.messages ++ [{ sender := Sender.user, content := formatMessage msg }],
                  promptValue := "", loading := true,
                  attachedFile := none, fileInputValue := "", filePreview := "" },
              [Part.text msg]) := by
  simp [sendMessagePrep, hatt, hmsg, showLoading, renderMessage, removeFile]

/-- `sendMessagePrep` with an attachment: the guard always passes, the
message is the prompt text or the synthesized default, the file part
precedes the text part, and the attachment is consumed. -/
theorem sendMessagePrep_with_attach (ui : UIState) (msg : String) (f : AttachedFile)
    (hatt : ui.attachedFile = some f) :
    sendMessagePrep ui msg
      = some ({ ui with
                  messages := ui.messages
                    ++ [⟨Sender.user, formatMessage (if jsTrim msg = "" then "Analyze this file: " ++ f.name else msg)⟩],
                  promptValue := "", loading := true,
                  attachedFile := none, fileInputValue := "", filePreview := "" },
              [Part.inlineData f.mimeType f.data,
               Part.text (if jsTrim msg = "" then "Analyze this file: " ++ f.name else msg)]) := by
  by_cases hmsg : jsTrim msg = "" <;>
    simp [sendMessagePrep, hatt, hmsg, showLoading, renderMessage, removeFile]

/-- Shape of any successful `sendMessagePrep`: the user entry for some
message `m` is appended, the input is disabled and cleared, the file
controls are reset, and `m` is the text part of the network call. -/
theorem sendMessagePrep_shape (ui ui' : UIState) (msg : String) (parts : List Part)
    (hprep : sendMessagePrep ui msg = some (ui', parts)) :
    ∃ m, ui' = { ui with
                  messages := ui.messages ++ [{ sender := Sender.user, content := formatMessage m }],
                  promptValue := "", loading := true,
                  attachedFile := none, fileInputValue := "", filePreview := "" }
      ∧ parts.getLast? = some (Part.text m) := by
  cases hatt : ui.attachedFile with
  | none =>
    by_cases hmsg : jsTrim msg = ""
    · simp [sendMessagePrep, hatt, hmsg] at hprep
    · rw [sendMessagePrep_no_attach ui msg hatt hmsg] at hprep
      have h := Option.some.inj hprep
      injection h with hfst hsnd
      exact ⟨msg, hfst.symm, by rw [← hsnd]; rfl⟩
  | some f =>
    rw [sendMessagePrep_with_attach ui msg f hatt] at hprep
    have h := Option.some.inj hprep
    injection h with hfst hsnd
    exact ⟨if jsTrim msg = "" then "Analyze this file: " ++ f.name else msg, hfst.symm,
      by rw [← hsnd]; rfl⟩

/-- The guard at src/index.tsx:144 is the only early return: it fires
exactly when the trimmed text is empty and no file is attached. -/
theorem sendMessagePrep_isSome_iff (ui : UIState) (msg : String) :
    (sendMessagePrep ui msg).isSome ↔ ¬(jsTrim msg = "" ∧ ui.attachedFile = none) := by
  constructor
  · intro h hguard
    simp [sendMessagePrep, hguard] at h
  · intro h
    cases hatt : ui.attachedFile with
    | none =>
      have hmsg : ¬ jsTrim msg = "" := fun hm => h ⟨hm, hatt⟩
      rw [sendMessagePrep_no_attach ui msg hatt hmsg]; rfl
    | some f =>
      rw [sendMessagePrep_with_attach ui msg f hatt]; rfl

/-- One loop iteration only touches the transcript, the element index
and the buffer: all other page state is untouched. -/
theorem processChunk_frame (ls : LoopState) (c : String) :
    (processChunk ls c).ui.promptValue = ls.ui.promptValue ∧
    (processChunk ls c).ui.loading = ls.ui.loading ∧
    (processChunk ls c).ui.attachedFile = ls.ui.attachedFile ∧
    (processChunk ls c).ui.fileInputValue = ls.ui.fileInputValue ∧
    (processChunk ls c).ui.filePreview = ls.ui.filePreview := by
  cases hai : ls.aiIdx <;> simp [processChunk, renderMessage, hai]

theorem processChunks_frame (chunks : List String) :
    ∀ ls : LoopState,
      (processChunks ls chunks).ui.promptValue = ls.ui.promptValue ∧
      (processChunks ls chunks).ui.loading = ls.ui.loading ∧
      (processChunks ls chunks).ui.attachedFile = ls.ui.attachedFile ∧
      (processChunks ls chunks).ui.fileInputValue = ls.ui.fileInputValue ∧
      (processChunks ls chunks).ui.filePreview = ls.ui.filePreview := by
  induction chunks with
  | nil => intro ls; exact ⟨rfl, rfl, rfl, rfl, rfl⟩
  | cons c rest ih =>
    intro ls
    have h1 := processChunk_frame ls c
    have h2 := ih (processChunk ls c)
    have hfold : processChunks ls (c :: rest) = processChunks (processChunk ls c) rest := rfl
    rw [hfold]
    exact ⟨h2.1.trans h1.1, h2.2.1.trans h1.2.1, h2.2.2.1.trans h1.2.2.1,
      h2.2.2.2.1.trans h1.2.2.2.1, h2.2.2.2.2.trans h1.2.2.2.2⟩

/-- One loop iteration never appends an error-styled entry. -/
theorem errorCount_processChunk (ls : LoopState) (c : String) :
    errorCount (processChunk ls c).ui.messages = errorCount ls.ui.messages := by
  cases hai : ls.aiIdx with
  | none =>
    simp only [processChunk, hai, renderMessage]
    rw [errorCount_updateContent]
    simp [errorCount, List.countP_append, List.countP_cons]
  | some i =>
    simp only [processChunk, hai]
    rw [errorCount_updateContent]

/-- The loop never appends an error-styled entry. -/
theorem errorCount_processChunks (chunks : List String) :
    ∀ ls : LoopState, errorCount (processChunks ls chunks).ui.messages = errorCount ls.ui.messages := by
  induction chunks with
  | nil => intro ls; rfl
  | cons c rest ih =>
    intro ls
    have hfold : processChunks ls (c :: rest) = processChunks (processChunk ls c) rest := rfl
    rw [hfold, ih (processChunk ls c), errorCount_processChunk]

/-! ### Claim theorems -/

/-- C1: for every send that passes the guard and whose response stream
yields at least one chunk, exactly one AI transcript entry is created —
the transcript after the send is the pre-call transcript plus a single
AI entry whose content is the formatter applied to the concatenation of
all chunk texts — and after each chunk `k` is processed the entry's
displayed content equals the formatter applied to the concatenation of
the first `k` chunk texts. -/
theorem C1_streaming_accumulation (ui ui' : UIState) (msg : String) (parts : List Part)
    (chunks : List String)
    (hprep : sendMessagePrep ui msg = some (ui', parts)) (hne : chunks ≠ []) :
    (sendMessage ui msg (StreamBehavior.ok chunks)).1.messages
        = ui'.messages ++ [{ sender := Sender.ai, content := formatMessage (concatChunks chunks) }] ∧
    ∀ k, 1 ≤ k → k ≤ chunks.length →
      (processChunks { ui := ui', aiIdx := none, buffer := "" } (chunks.take k)).ui.messages
        = ui'.messages ++ [{ sender := Sender.ai, content := formatMessage (concatChunks (chunks.take k)) }] := by
  cases chunks with
  | nil => exact absurd rfl hne
  | cons c rest =>
    constructor
    · simp only [sendMessage, hprep, sendMessageRun, hideLoading]
      rw [processChunks_run]
    · intro k hk1 hk2
      cases k with
      | zero => omega
      | succ n => rw [List.take_succ_cons, processChunks_run]

/-- Witness for C1: chunks `["Hel", "lo!"]` after the send of `"Hi"`
from the empty page produce intermediate AI contents `"Hel"` then
`"Hello!"`, and a single final AI entry rendering `"Hello!"`. -/
theorem C1_streaming_accumulation_witness :
    (processChunks { ui := ⟨[⟨Sender.user, "Hi"⟩], "", true, none, "", ""⟩, aiIdx := none, buffer := "" }
        ((["Hel", "lo!"] : List String).take 1)).ui.messages
      = [⟨Sender.user, "Hi"⟩, ⟨Sender.ai, "Hel"⟩] ∧
    (processChunks { ui := ⟨[⟨Sender.user, "Hi"⟩], "", true, none, "", ""⟩, aiIdx := none, buffer := "" }
        ((["Hel", "lo!"] : List String).take 2)).ui.messages
      = [⟨Sender.user, "Hi"⟩, ⟨Sender.ai, "Hello!"⟩] ∧
    (sendMessage emptyUI "Hi" (StreamBehavior.ok ["Hel", "lo!"])).1.messages
      = [⟨Sender.user, "Hi"⟩, ⟨Sender.ai, "Hello!"⟩] := by
  have h := C1_streaming_accumulation emptyUI ⟨[⟨Sender.user, "Hi"⟩], "", true, none, "", ""⟩
    "Hi" [Part.text "Hi"] ["Hel", "lo!"] (by decide) (by decide)
  refine ⟨?_, ?_, ?_⟩
  · rw [h.2 1 (by decide) (by decide)]; decide
  · rw [h.2 2 (by decide) (by decide)]; decide
  · rw [h.1]; decide

/-- C2: the attachment state is one nullable slot (`attachedFile`), so at
most one AttachedFile exists at any point; for every call to
`sendMessage` that proceeds past the guard, the state from which the
network call is issued has the slot already cleared, and the rest of the
send runs from that cleared state, so the consumed attachment cannot be
reused. -/
theorem C2_attachment_consumed_before_call (ui ui' : UIState) (msg : String) (parts : List Part)
    (hprep : sendMessagePrep ui msg = some (ui', parts)) :
    ui'.attachedFile = none ∧
    ∀ b, sendMessage ui msg b = (sendMessageRun ui' b, some parts) := by
  obtain ⟨m, hshape, -⟩ := sendMessagePrep_shape ui ui' msg parts hprep
  exact ⟨by rw [hshape], fun b => by simp [sendMessage, hprep]⟩

/-- Witness for C2: a send of `"hi"` with a CSV attached issues the
network call from a state with an empty attachment slot. -/
theorem C2_attachment_consumed_witness :
    (⟨[⟨Sender.user, "hi"⟩], "", true, none, "", ""⟩ : UIState).attachedFile = none ∧
    sendMessage { emptyUI with attachedFile := some ⟨"text/csv", "QUJD", "data.csv"⟩ } "hi"
        (StreamBehavior.ok ["ok"])
      = (sendMessageRun ⟨[⟨Sender.user, "hi"⟩], "", true, none, "", ""⟩ (StreamBehavior.ok ["ok"]),
         some [Part.inlineData "text/csv" "QUJD", Part.text "hi"]) := by
  have h := C2_attachment_consumed_before_call
    { emptyUI with attachedFile := some ⟨"text/csv", "QUJD", "data.csv"⟩ }
    ⟨[⟨Sender.user, "hi"⟩], "", true, none, "", ""⟩ "hi"
    [Part.inlineData "text/csv" "QUJD", Part.text "hi"] (by decide)
  exact ⟨h.1, h.2 (StreamBehavior.ok ["ok"])⟩

/-- C3: the text formatter is a pure function applying, in the fixed
order of the source, the substitutions bold, italic, inline code and
newline to the whole input; the replacement order does not convert a
marker twice — `**a*b*c**` is mapped to bold markup containing italic
markup. -/
theorem C3_formatter_order_and_nesting :
    (∀ s : String,
        formatMessage s
          = String.mk (replaceNewlines (replaceCode (replaceItalic (replaceBold s.toList))))) ∧
    formatMessage "**a*b*c**" = "<strong>a<em>b</em>c</strong>" :=
  ⟨fun _ => rfl, by decide⟩

theorem errorCount_append_error (l : List Entry) (c : String) :
    errorCount (l ++ [⟨Sender.error, c⟩]) = errorCount l + 1 := by
  simp [errorCount, List.countP_append, List.countP_cons]

theorem errorCount_append_user (l : List Entry) (c : String) :
    errorCount (l ++ [⟨Sender.user, c⟩]) = errorCount l := by
  simp [errorCount, List.countP_append, List.countP_cons]

/-- C4: a send in which the call or the chunk iteration throws appends
exactly one error-styled transcript entry, that entry carries the thrown
error's message (prefixed `Error: `), and the loading state is cleared
after the send, whether it ended by normal exhaustion or by the error. -/
theorem C4_error_path (ui ui' : UIState) (msg : String) (parts : List Part)
    (chunks : List String) (thrown : Option String)
    (hprep : sendMessagePrep ui msg = some (ui', parts)) :
    errorCount (sendMessage ui msg (StreamBehavior.err chunks thrown)).1.messages
        = errorCount ui.messages + 1 ∧
    (sendMessage ui msg (StreamBehavior.err chunks thrown)).1.messages.getLast?
        = some { sender := Sender.error, content := "Error: " ++ thrownMessage thrown } ∧
    (sendMessage ui msg (StreamBehavior.err chunks thrown)).1.loading = false ∧
    (sendMessage ui msg (StreamBehavior.ok chunks)).1.loading = false := by
  obtain ⟨m, hshape, -⟩ := sendMessagePrep_shape ui ui' msg parts hprep
  have hpre : errorCount ui'.messages = errorCount ui.messages := by
    rw [hshape]; exact errorCount_append_user ui.messages (formatMessage m)
  have hmsgs : (sendMessage ui msg (StreamBehavior.err chunks thrown)).1.messages
      = (processChunks { ui := ui', aiIdx := none, buffer := "" } chunks).ui.messages
        ++ [⟨Sender.error, "Error: " ++ thrownMessage thrown⟩] := by
    simp [sendMessage, hprep, sendMessageRun, renderError, hideLoading]
  refine ⟨?_, ?_, ?_, ?_⟩
  · rw [hmsgs, errorCount_append_error, errorCount_processChunks]
    show errorCount ui'.messages + 1 = _
    rw [hpre]
  · rw [hmsgs, List.getLast?_concat]
  · simp [sendMessage, hprep, sendMessageRun, hideLoading]
  · simp [sendMessage, hprep, sendMessageRun, hideLoading]

/-- Witness for C4: a send of `"hi"` whose stream yields `"par"` and then
throws `Error("boom")` gains one error entry reading `Error: boom` and
ends with loading off. -/
theorem C4_error_path_witness :
    errorCount (sendMessage emptyUI "hi" (StreamBehavior.err ["par"] (some "boom"))).1.messages
        = errorCount emptyUI.messages + 1 ∧
    (sendMessage emptyUI "hi" (StreamBehavior.err ["par"] (some "boom"))).1.messages.getLast?
        = some { sender := Sender.error, content := "Error: " ++ thrownMessage (some "boom") } ∧
    (sendMessage emptyUI "hi" (StreamBehavior.err ["par"] (some "boom"))).1.loading = false ∧
    (sendMessage emptyUI "hi" (StreamBehavior.ok ["par"])).1.loading = false :=
  C4_error_path emptyUI ⟨[⟨Sender.user, "hi"⟩], "", true, none, "", ""⟩ "hi" [Part.text "hi"]
    ["par"] (some "boom") (by decide)

/-- C5: a send whose text trims to nothing while a file is attached
synthesizes exactly `Analyze this file: <name>`: that string is rendered
as the user entry (through the formatter, like every message) and is the
text part sent to the chat endpoint. -/
theorem C5_default_message (ui : UIState) (msg : String) (f : AttachedFile)
    (hmsg : jsTrim msg = "") (hatt : ui.attachedFile = some f) :
    sendMessagePrep ui msg
      = some ({ ui with
                  messages := ui.messages
                    ++ [⟨Sender.user, formatMessage ("Analyze this file: " ++ f.name)⟩],
                  promptValue := "", loading := true,
                  attachedFile := none, fileInputValue := "", filePreview := "" },
              [Part.inlineData f.mimeType f.data,
               Part.text ("Analyze this file: " ++ f.name)]) := by
  rw [sendMessagePrep_with_attach ui msg f hatt]
  simp [hmsg]

/-- Witness for C5: blank text with `data.csv` attached renders and
sends `Analyze this file: data.csv`. -/
theorem C5_default_message_witness :
    sendMessagePrep { emptyUI with attachedFile := some ⟨"text/csv", "QUJD", "data.csv"⟩ } "  "
      = some (⟨[⟨Sender.user, "Analyze this file: data.csv"⟩], "", true, none, "", ""⟩,
              [Part.inlineData "text/csv" "QUJD", Part.text "Analyze this file: data.csv"]) := by
  rw [C5_default_message { emptyUI with attachedFile := some ⟨"text/csv", "QUJD", "data.csv"⟩ }
    "  " ⟨"text/csv", "QUJD", "data.csv"⟩ (by decide) (by decide)]
  decide

/-- C6: a submit triggers the sending transition (loading on, user
message rendered, input field cleared, network call issued) exactly when
the text does not trim to nothing or an attachment is pending; a submit
with blank text and no attachment changes nothing and issues no call. -/
theorem C6_submit_guard (ui : UIState) (msg : String) (b : StreamBehavior) :
    (jsTrim msg = "" ∧ ui.attachedFile = none →
      sendMessage ui msg b = (ui, none)) ∧
    (¬(jsTrim msg = "" ∧ ui.attachedFile = none) →
      ∃ ui' parts, sendMessagePrep ui msg = some (ui', parts) ∧
        (sendMessage ui msg b).2 = some parts ∧
        ui'.loading = true ∧ ui'.promptValue = "" ∧
        ∃ m, (¬ jsTrim msg = "" → m = msg) ∧
          ui'.messages = ui.messages ++ [{ sender := Sender.user, content := formatMessage m }]) := by
  constructor
  · intro h
    simp [sendMessage, sendMessagePrep, h.1, h.2]
  · intro h
    cases hatt : ui.attachedFile with
    | none =>
      have hmsg : ¬ jsTrim msg = "" := fun hm => h ⟨hm, hatt⟩
      refine ⟨_, _, sendMessagePrep_no_attach ui msg hatt hmsg, ?_, rfl, rfl, msg,
        fun _ => rfl, rfl⟩
      simp [sendMessage, sendMessagePrep_no_attach ui msg hatt hmsg]
    | some f =>
      refine ⟨_, _, sendMessagePrep_with_attach ui msg f hatt, ?_, rfl, rfl,
        if jsTrim msg = "" then "Analyze this file: " ++ f.name else msg, ?_, rfl⟩
      · simp [sendMessage, sendMessagePrep_with_attach ui msg f hatt]
      · intro hm; simp [hm]

/-- Witness for C6: a blank submit on the empty page is a no-op, and a
submit of `"hello"` issues the network call with that text. -/
theorem C6_submit_guard_witness :
    sendMessage emptyUI "" (StreamBehavior.ok ["ok"]) = (emptyUI, none) ∧
    ∃ ui' parts, sendMessagePrep emptyUI "hello" = some (ui', parts) ∧
      (sendMessage emptyUI "hello" (StreamBehavior.ok ["ok"])).2 = some parts ∧
      ui'.loading = true ∧ ui'.promptValue = "" ∧
      ∃ m, (¬ jsTrim "hello" = "" → m = "hello") ∧
        ui'.messages = emptyUI.messages ++ [{ sender := Sender.user, content := formatMessage m }] :=
  ⟨(C6_submit_guard emptyUI "" (StreamBehavior.ok ["ok"])).1 (by decide),
   (C6_submit_guard emptyUI "hello" (StreamBehavior.ok ["ok"])).2 (by decide)⟩

/-- C7: with the API key absent (unset or empty), construction renders
the configuration error exactly once as a transcript error and halts:
the result is the prior transcript plus that single error entry, no chat
session is created, and no welcome message is rendered — so every later
send has no session to call. -/
theorem C7_missing_key (apiKey : Option String) (ui0 : UIState)
    (h : keyAbsent apiKey = true) :
    construct apiKey ui0
      = { ui := { ui0 with
                    messages := ui0.messages ++ [⟨Sender.error, "Error: " ++ apiKeyError⟩],
                    loading := false },
          sessionCreated := false } := by
  simp [construct, h, renderError, hideLoading]

/-- Witness for C7: constructing with no API key on the empty page. -/
theorem C7_missing_key_witness :
    construct none emptyUI
      = { ui := { emptyUI with
                    messages := [⟨Sender.error, "Error: API_KEY environment variable not set."⟩],
                    loading := false },
          sessionCreated := false } := by
  rw [C7_missing_key none emptyUI (by decide)]
  decide

/-- C8: a send whose stream completes after yielding zero chunks creates
no AI transcript entry at all — the final state is the prepared state
with loading turned back off, so the transcript gained only the user
entry of this send — and the input is re-enabled. -/
theorem C8_empty_stream (ui ui' : UIState) (msg : String) (parts : List Part)
    (hprep : sendMessagePrep ui msg = some (ui', parts)) :
    (sendMessage ui msg (StreamBehavior.ok [])).1 = hideLoading ui' ∧
    (∃ m, (sendMessage ui msg (StreamBehavior.ok [])).1.messages
        = ui.messages ++ [{ sender := Sender.user, content := formatMessage m }]) ∧
    (sendMessage ui msg (StreamBehavior.ok [])).1.loading = false := by
  obtain ⟨m, hshape, -⟩ := sendMessagePrep_shape ui ui' msg parts hprep
  have hrun : (sendMessage ui msg (StreamBehavior.ok [])).1 = hideLoading ui' := by
    simp [sendMessage, hprep, sendMessageRun, processChunks]
  refine ⟨hrun, ⟨m, ?_⟩, by rw [hrun]; rfl⟩
  rw [hrun, hshape]
  rfl

/-- Witness for C8: a send of `"hi"` with an empty stream leaves only
the user entry and re-enables input. -/
theorem C8_empty_stream_witness :
    (sendMessage emptyUI "hi" (StreamBehavior.ok [])).1
        = hideLoading ⟨[⟨Sender.user, "hi"⟩], "", true, none, "", ""⟩ ∧
    (∃ m, (sendMessage emptyUI "hi" (StreamBehavior.ok [])).1.messages
        = emptyUI.messages ++ [{ sender := Sender.user, content := formatMessage m }]) ∧
    (sendMessage emptyUI "hi" (StreamBehavior.ok [])).1.loading = false :=
  C8_empty_stream emptyUI ⟨[⟨Sender.user, "hi"⟩], "", true, none, "", ""⟩ "hi"
    [Part.text "hi"] (by decide)

/-- C9: every send that passes the guard resets the file input's value
and empties the preview container (and the attachment slot) in the state
from which the network call is issued — unconditionally, so a text-only
send with no file attached also resets both controls. -/
theorem C9_file_controls_reset (ui ui' : UIState) (msg : String) (parts : List Part)
    (hprep : sendMessagePrep ui msg = some (ui', parts)) :
    ui'.fileInputValue = "" ∧ ui'.filePreview = "" ∧ ui'.attachedFile = none := by
  obtain ⟨m, hshape, -⟩ := sendMessagePrep_shape ui ui' msg parts hprep
  rw [hshape]
  exact ⟨rfl, rfl, rfl⟩

/-- Witness for C9: a text-only send with no attachment but stale file
controls still resets them. -/
theorem C9_file_controls_reset_witness :
    (⟨[⟨Sender.user, "hi"⟩], "", true, none, "", ""⟩ : UIState).fileInputValue = "" ∧
    (⟨[⟨Sender.user, "hi"⟩], "", true, none, "", ""⟩ : UIState).filePreview = "" ∧
    (⟨[⟨Sender.user, "hi"⟩], "", true, none, "", ""⟩ : UIState).attachedFile = none :=
  C9_file_controls_reset
    { emptyUI with fileInputValue := "stale.csv", filePreview := "<div>stale</div>" }
    ⟨[⟨Sender.user, "hi"⟩], "", true, none, "", ""⟩ "hi" [Part.text "hi"] (by decide)

/-- C10: when a send that consumed an attachment fails with a transport
error, the attachment is not restored: the call was issued, and in the
final state (after the error entry is rendered) the attachment slot, the
file input and the preview container are all still empty. -/
theorem C10_attachment_not_restored (ui : UIState) (msg : String) (f : AttachedFile)
    (chunks : List String) (thrown : Option String)
    (hatt : ui.attachedFile = some f) :
    (sendMessage ui msg (StreamBehavior.err chunks thrown)).2.isSome ∧
    (sendMessage ui msg (StreamBehavior.err chunks thrown)).1.attachedFile = none ∧
    (sendMessage ui msg (StreamBehavior.err chunks thrown)).1.fileInputValue = "" ∧
    (sendMessage ui msg (StreamBehavior.err chunks thrown)).1.filePreview = "" := by
  have hprep := sendMessagePrep_with_attach ui msg f hatt
  refine ⟨?_, ?_, ?_, ?_⟩
  · simp [sendMessage, hprep]
  · simp only [sendMessage, hprep, sendMessageRun, renderError, hideLoading]
    exact (processChunks_frame chunks _).2.2.1
  · simp only [sendMessage, hprep, sendMessageRun, renderError, hideLoading]
    exact (processChunks_frame chunks _).2.2.2.1
  · simp only [sendMessage, hprep, sendMessageRun, renderError, hideLoading]
    exact (processChunks_frame chunks _).2.2.2.2

/-- Witness for C10: a failed send that consumed `data.csv` leaves slot,
file input and preview empty. -/
theorem C10_attachment_not_restored_witness :
    (sendMessage { emptyUI with attachedFile := some ⟨"text/csv", "QUJD", "data.csv"⟩ } "go"
        (StreamBehavior.err [] (some "network down"))).2.isSome ∧
    (sendMessage { emptyUI with attachedFile := some ⟨"text/csv", "QUJD", "data.csv"⟩ } "go"
        (StreamBehavior.err [] (some "network down"))).1.attachedFile = none ∧
    (sendMessage { emptyUI with attachedFile := some ⟨"text/csv", "QUJD", "data.csv"⟩ } "go"
        (StreamBehavior.err [] (some "network down"))).1.fileInputValue = "" ∧
    (sendMessage { emptyUI with attachedFile := some ⟨"text/csv", "QUJD", "data.csv"⟩ } "go"
        (StreamBehavior.err [] (some "network down"))).1.filePreview = "" :=
  C10_attachment_not_restored { emptyUI with attachedFile := some ⟨"text/csv", "QUJD", "data.csv"⟩ }
    "go" ⟨"text/csv", "QUJD", "data.csv"⟩ [] (some "network down") (by decide)

end AITutor
